import Mathlib

/-!
Shallow embedding of the `@specmanager/mcp-server` repository
(`src/types.ts`, `src/config.ts`, `src/api/client.ts`, `src/utils/git.ts`,
`src/tools/*.ts`, `src/server.ts`).

External collaborators (the backend HTTP API reached through `fetch`, the
filesystem read by the git helper, and the MCP SDK transport) are modelled as
explicit oracle parameters; everything else is translated line by line from
the TypeScript source.  JavaScript string truthiness (`undefined`/`''` are
falsy) is made explicit wherever the source relies on it.
-/

deriving instance DecidableEq for Except

namespace SM

/-- `ErrorCode` enum from `src/types.ts` (lines 80-88).  Note that the enum
has exactly these seven members; there is no member for an unknown tool. -/
inductive ErrorCode where
  | NOT_CONFIGURED
  | UNAUTHORIZED
  | TASK_NOT_FOUND
  | PROJECT_NOT_FOUND
  | INVALID_STATE_TRANSITION
  | API_ERROR
  | NETWORK_ERROR
deriving DecidableEq, Repr

/-- `MCPServerError` from `src/types.ts`: message, machine-readable code and
optional originating HTTP status. -/
structure MCPServerError where
  message : String
  code : ErrorCode
  httpStatus : Option Nat := none
deriving DecidableEq, Repr

/-- JavaScript `x || d` on an optional string: `undefined` and `''` are falsy. -/
def jsTruthyOr (o : Option String) (d : String) : String :=
  match o with
  | some s => if s = "" then d else s
  | none => d

/-- JavaScript truthiness of a `string | undefined` value. -/
def optTruthy : Option String → Bool
  | some s => !(s = "")
  | none => false

/-- Mutable state of a `TaskApiClient` (`src/api/client.ts` lines 128-151):
the credential and base URL are fixed at construction, `projectId` is the
mutable project scope read by `getProjectId` and written by `setProjectId`. -/
structure ClientState where
  apiUrl : String
  apiKey : String
  projectId : Option String
deriving DecidableEq, Repr

/-- Fields of the JSON body the client reads from a non-2xx response
(`errorData.message`, `errorData.error`, `errorData.code`); an absent field
models both a missing key and a body that failed to parse (`.catch(() => ({}))`). -/
structure ErrorData where
  message : Option String := none
  error : Option String := none
  code : Option String := none
deriving DecidableEq, Repr

/-- Outcome of one `fetch` round trip as seen by `TaskApiClient.request`:
either the transport throws, or a response arrives with a status, the error
body (read only when the status is not ok) and the decoded success body
(`none` models a body that is not valid JSON). -/
inductive FetchOutcome (T : Type) where
  | transportError (msg : String)
  | response (status : Nat) (errorData : ErrorData) (body : Option T)

/-- `Response.ok` of the fetch API: status in the range 200-299. -/
def respOk (status : Nat) : Bool := decide (200 ≤ status ∧ status < 300)

/-- `mapErrorCode` from `src/api/client.ts` lines 205-222, translated branch
for branch. -/
def mapErrorCode (apiCode : String) (status : Nat) : ErrorCode :=
  if status = 401 ∨ status = 403 then ErrorCode.UNAUTHORIZED
  else if apiCode = "TASK_NOT_FOUND" then ErrorCode.TASK_NOT_FOUND
  else if apiCode = "PROJECT_NOT_FOUND" then ErrorCode.PROJECT_NOT_FOUND
  else if apiCode = "INVALID_STATE_TRANSITION" ∨ apiCode = "TASK_ALREADY_IN_PROGRESS" ∨
          apiCode = "TASK_NOT_STARTED" ∨ apiCode = "TASK_ALREADY_COMPLETED" then
    ErrorCode.INVALID_STATE_TRANSITION
  else ErrorCode.API_ERROR

/-- `TaskApiClient.request` from `src/api/client.ts` lines 156-200 applied to
the outcome of the one `fetch` it performs.  A thrown `MCPServerError` is
re-raised unchanged; any other throw (transport failure, JSON parse failure on
the ok path) is wrapped as `NETWORK_ERROR`. -/
def TaskApiClient.request {T : Type} (o : FetchOutcome T) : Except MCPServerError T :=
  match o with
  | .transportError msg =>
      .error ⟨"Network error: " ++ msg, ErrorCode.NETWORK_ERROR, none⟩
  | .response status errorData body =>
      if respOk status then
        match body with
        | some t => .ok t
        | none => .error ⟨"Network error: invalid JSON", ErrorCode.NETWORK_ERROR, none⟩
      else
        let message := jsTruthyOr errorData.message
          (jsTruthyOr errorData.error ("HTTP " ++ toString status))
        let code := jsTruthyOr errorData.code "API_ERROR"
        .error ⟨message, mapErrorCode code status, some status⟩

/-- Spec reference attached to a task (`Task.spec` in `src/types.ts`).  Task
status values are the runtime strings `pending` / `in-progress` / `done`. -/
structure SpecRef where
  id : String
  title : String
  stage : String
deriving DecidableEq, Repr

/-- `Task` from `src/types.ts` lines 9-26. -/
structure Task where
  id : String
  taskNumber : Option String
  title : String
  status : String
  files : List String
  implementation : Option String
  purposes : Option String
  sortOrder : Int
  specId : String
  createdAt : String
  updatedAt : String
  spec? : Option SpecRef
deriving DecidableEq, Repr

/-- Spec section of a `TaskDetail` (`src/types.ts` lines 31-39). -/
structure SpecDetail where
  id : String
  title : String
  stage : String
  requirementsContent : Option String
  designContent : Option String
deriving DecidableEq, Repr

/-- `TaskDetail` from `src/types.ts`: a task with the full spec record. -/
structure TaskDetail where
  id : String
  taskNumber : Option String
  title : String
  status : String
  files : List String
  implementation : Option String
  purposes : Option String
  sortOrder : Int
  specId : String
  createdAt : String
  updatedAt : String
  spec : SpecDetail
deriving DecidableEq, Repr

/-- `Project` from `src/api/types.ts` lines 8-16. -/
structure Project where
  id : String
  name : String
  githubRepositoryFullName : Option String
  githubRepositoryUrl : Option String
  githubRepositoryDefaultBranch : Option String := none
  createdAt : String
  updatedAt : String
deriving DecidableEq, Repr

/-- Task counts of a spec (`src/api/types.ts` lines 28-33). -/
structure TaskCounts where
  pending : Nat
  inProgress : Nat
  done : Nat
  total : Nat
deriving DecidableEq, Repr

/-- `Spec` from `src/api/types.ts` lines 24-36. -/
structure Spec where
  id : String
  title : String
  stage : String
  taskCounts : TaskCounts
  createdAt : String
  updatedAt : String
deriving DecidableEq, Repr

/-- `TaskFilters` from `src/types.ts` lines 61-64. -/
structure TaskFilters where
  status : Option String := none
  specId : Option String := none
deriving DecidableEq, Repr

/-- `TaskCompletion` / `CompleteTaskRequest` body. -/
structure TaskCompletion where
  summary : String
  filesModified : List String
  implementation : Option String := none
deriving DecidableEq, Repr

/-- `ProgressUpdate` / `ReportProgressRequest` body; the numeric percent is
modelled as an integer. -/
structure ProgressUpdate where
  message : String
  percent : Option Int := none
deriving DecidableEq, Repr

/-- `ListTasksResponse` wrapper from `src/api/types.ts`. -/
structure ListTasksResponse where
  tasks : List Task
deriving DecidableEq, Repr

/-- `ListSpecsResponse` wrapper from `src/api/types.ts`. -/
structure ListSpecsResponse where
  specs : List Spec
deriving DecidableEq, Repr

/-- `ListProjectsResponse` wrapper from `src/api/types.ts`. -/
structure ListProjectsResponse where
  projects : List Project
deriving DecidableEq, Repr

/-- `GetProjectByRepoResponse` wrapper from `src/api/types.ts`. -/
structure GetProjectByRepoResponse where
  project : Project
deriving DecidableEq, Repr

/-- `GetTaskResponse` wrapper from `src/api/types.ts`. -/
structure GetTaskResponse where
  task : TaskDetail
deriving DecidableEq, Repr

/-- `StartTaskResponse` wrapper from `src/api/types.ts`. -/
structure StartTaskResponse where
  task : Task
deriving DecidableEq, Repr

/-- `CompleteTaskResponse` wrapper from `src/api/types.ts`. -/
structure CompleteTaskResponse where
  task : Task
deriving DecidableEq, Repr

/-- `ReportProgressResponse` wrapper from `src/api/types.ts`. -/
structure ReportProgressResponse where
  success : Bool
deriving DecidableEq, Repr

/-- Oracle for the remote backend HTTP API: for each endpoint the outcome of
the one `fetch` that `TaskApiClient.request` performs, as a function of the
request path (and, for the two endpoints with a body, the request body). -/
structure Backend where
  listTasksR : String → FetchOutcome ListTasksResponse
  listSpecsR : String → FetchOutcome ListSpecsResponse
  projectByRepoR : String → FetchOutcome GetProjectByRepoResponse
  listProjectsR : String → FetchOutcome ListProjectsResponse
  getTaskR : String → FetchOutcome GetTaskResponse
  startTaskR : String → FetchOutcome StartTaskResponse
  completeTaskR : String → TaskCompletion → FetchOutcome CompleteTaskResponse
  reportProgressR : String → ProgressUpdate → FetchOutcome ReportProgressResponse

/-- Uppercase hex digit of a value below 16 (used by percent-encoding). -/
def hexDigit (n : Nat) : Char :=
  if n < 10 then Char.ofNat (48 + n) else Char.ofNat (55 + n)

/-- Bytes left unescaped by JavaScript `encodeURIComponent`:
`A-Z a-z 0-9 - _ . ! ~ * ' ( )`. -/
def uriUnreserved (b : Nat) : Bool :=
  (decide (65 ≤ b) && decide (b ≤ 90)) || (decide (97 ≤ b) && decide (b ≤ 122)) ||
  (decide (48 ≤ b) && decide (b ≤ 57)) ||
  b == 45 || b == 95 || b == 46 || b == 33 || b == 126 || b == 42 ||
  b == 39 || b == 40 || b == 41

/-- UTF-8 byte sequence of one character. -/
def utf8Bytes (c : Char) : List Nat :=
  let n := c.toNat
  if n < 128 then [n]
  else if n < 2048 then [192 + n / 64, 128 + n % 64]
  else if n < 65536 then [224 + n / 4096, 128 + (n / 64) % 64, 128 + n % 64]
  else [240 + n / 262144, 128 + (n / 4096) % 64, 128 + (n / 64) % 64, 128 + n % 64]

/-- JavaScript `encodeURIComponent`: UTF-8 percent-encoding of all bytes
outside the unreserved set. -/
def encodeURIComponent (s : String) : String :=
  String.mk (s.data.flatMap fun c =>
    (utf8Bytes c).flatMap fun b =>
      if uriUnreserved b then [Char.ofNat b]
      else ['%', hexDigit (b / 16), hexDigit (b % 16)])

/-- The `NOT_CONFIGURED` error thrown by `listTasks` and `listSpecs` when no
project scope is set (`src/api/client.ts` lines 236-241 and 321-326). -/
def projectRequiredErr : MCPServerError :=
  ⟨"Project ID is required. Set SPECMANAGER_PROJECT_ID or call setProjectId()",
   ErrorCode.NOT_CONFIGURED, none⟩

/-- Trace entry for one outbound HTTP request (`method` and full URL with the
versioned `/api/v1` prefix, `src/api/client.ts` line 162). -/
def traceEntry (c : ClientState) (method path : String) : String :=
  method ++ " " ++ c.apiUrl ++ "/api/v1" ++ path

/-- `TaskApiClient.listTasks` (`src/api/client.ts` lines 235-255): guard on
the project scope (JS falsiness: absent or empty string), then one GET with
the status and optional specId query parameters.  The second component is the
list of HTTP requests performed. -/
def TaskApiClient.listTasks (c : ClientState) (filters : Option TaskFilters)
    (bk : Backend) : Except MCPServerError (List Task) × List String :=
  match c.projectId with
  | none => (.error projectRequiredErr, [])
  | some pid =>
    if pid = "" then (.error projectRequiredErr, [])
    else
      let status := jsTruthyOr (filters.bind (·.status)) "all"
      let qs := "status=" ++ status ++
        (match filters.bind (·.specId) with
         | some sid => if sid = "" then "" else "&specId=" ++ sid
         | none => "")
      let path := "/projects/" ++ pid ++ "/tasks?" ++ qs
      ((TaskApiClient.request (bk.listTasksR path)).map (·.tasks),
       [traceEntry c "GET" path])

/-- `TaskApiClient.listSpecs` (`src/api/client.ts` lines 320-334): same scope
guard, then one GET. -/
def TaskApiClient.listSpecs (c : ClientState) (bk : Backend) :
    Except MCPServerError (List Spec) × List String :=
  match c.projectId with
  | none => (.error projectRequiredErr, [])
  | some pid =>
    if pid = "" then (.error projectRequiredErr, [])
    else
      let path := "/projects/" ++ pid ++ "/specs"
      ((TaskApiClient.request (bk.listSpecsR path)).map (·.specs),
       [traceEntry c "GET" path])

/-- `TaskApiClient.listProjects` (`src/api/client.ts` lines 308-315). -/
def TaskApiClient.listProjects (c : ClientState) (bk : Backend) :
    Except MCPServerError (List Project) × List String :=
  let path := "/projects"
  ((TaskApiClient.request (bk.listProjectsR path)).map (·.projects),
   [traceEntry c "GET" path])

/-- `TaskApiClient.getTask` (`src/api/client.ts` lines 260-267). -/
def TaskApiClient.getTask (c : ClientState) (taskId : String) (bk : Backend) :
    Except MCPServerError TaskDetail × List String :=
  let path := "/tasks/" ++ taskId
  ((TaskApiClient.request (bk.getTaskR path)).map (·.task),
   [traceEntry c "GET" path])

/-- `TaskApiClient.startTask` (`src/api/client.ts` lines 272-279). -/
def TaskApiClient.startTask (c : ClientState) (taskId : String) (bk : Backend) :
    Except MCPServerError Task × List String :=
  let path := "/tasks/" ++ taskId ++ "/start"
  ((TaskApiClient.request (bk.startTaskR path)).map (·.task),
   [traceEntry c "PATCH" path])

/-- `TaskApiClient.completeTask` (`src/api/client.ts` lines 284-292). -/
def TaskApiClient.completeTask (c : ClientState) (taskId : String)
    (completion : TaskCompletion) (bk : Backend) :
    Except MCPServerError Task × List String :=
  let path := "/tasks/" ++ taskId ++ "/complete"
  ((TaskApiClient.request (bk.completeTaskR path completion)).map (·.task),
   [traceEntry c "PATCH" path])

/-- `TaskApiClient.reportProgress` (`src/api/client.ts` lines 297-303). -/
def TaskApiClient.reportProgress (c : ClientState) (taskId : String)
    (progress : ProgressUpdate) (bk : Backend) :
    Except MCPServerError Unit × List String :=
  let path := "/tasks/" ++ taskId ++ "/progress"
  ((TaskApiClient.request (bk.reportProgressR path progress)).map (fun _ => ()),
   [traceEntry c "POST" path])

/-- `TaskApiClient.getProjectByRepo` (`src/api/client.ts` lines 339-354): the
one place a backend failure is converted into a non-error result, and only
for the `PROJECT_NOT_FOUND` code. -/
def TaskApiClient.getProjectByRepo (c : ClientState) (repoFullName : String)
    (bk : Backend) : Except MCPServerError (Option Project) × List String :=
  let path := "/projects/by-repo?repo=" ++ encodeURIComponent repoFullName
  let tr := [traceEntry c "GET" path]
  match TaskApiClient.request (bk.projectByRepoR path) with
  | .ok r => (.ok (some r.project), tr)
  | .error e =>
      if e.code = ErrorCode.PROJECT_NOT_FOUND then (.ok none, tr)
      else (.error e, tr)

/-- Drop an expected literal sequence from the front of a character list,
returning the remainder on success. -/
def dropPre : List Char → List Char → Option (List Char)
  | [], s => some s
  | _, [] => none
  | p :: ps, c :: cs => if p = c then dropPre ps cs else none

/-- Lazy tail of the capture group in the two git-remote regexes:
`[^/]+?(?:\.git)?$`.  Consumes the shortest nonempty run of non-`/`
characters after which the remainder is exactly `.git` (preferred, the
optional group is greedy) or empty, and returns that run. -/
def segTail (acc : List Char) : List Char → Option (List Char)
  | [] => none
  | c :: rest =>
    if c = '/' then none
    else if rest = ['.', 'g', 'i', 't'] ∨ rest = [] then some (List.reverse (c :: acc))
    else segTail (c :: acc) rest

/-- Match `([^/]+\/[^/]+?)(?:\.git)?$` against the remainder of the URL and
return the captured `owner/repo` text. -/
def matchSegs (t : List Char) : Option String :=
  let seg1 := t.takeWhile (fun c => !(c = '/'))
  let rest := t.dropWhile (fun c => !(c = '/'))
  match seg1, rest with
  | [], _ => none
  | _, [] => none
  | s1, _ :: tail =>
    match segTail [] tail with
    | some core => some (String.mk (s1 ++ '/' :: core))
    | none => none

/-- Attempt the HTTPS regex of `parseGitRemoteUrl` at one start position:
`https?:\/\/github\.com\/` then the capture group. -/
def tryHttps (s : List Char) : Option String :=
  match dropPre "https://".data s with
  | some r =>
    (match dropPre "github.com/".data r with
     | some rest => matchSegs rest
     | none => none)
  | none =>
    match dropPre "http://".data s with
    | some r =>
      (match dropPre "github.com/".data r with
       | some rest => matchSegs rest
       | none => none)
    | none => none

/-- Attempt the SSH regex of `parseGitRemoteUrl` at one start position:
`git@github\.com:` then the capture group. -/
def trySsh (s : List Char) : Option String :=
  match dropPre "git@github.com:".data s with
  | some rest => matchSegs rest
  | none => none

/-- Leftmost unanchored match: JavaScript `String.match` tries every start
position in order. -/
def scanMatch (tryAt : List Char → Option String) : List Char → Option String
  | [] => tryAt []
  | c :: rest =>
    match tryAt (c :: rest) with
    | some r => some r
    | none => scanMatch tryAt rest

/-- `parseGitRemoteUrl` from `src/utils/git.ts` lines 386-400: HTTPS shape
first, then SSH shape, else `null`. -/
def parseGitRemoteUrl (url : String) : Option String :=
  match scanMatch tryHttps url.data with
  | some m => some m
  | none =>
    match scanMatch trySsh url.data with
    | some m => some m
    | none => none

/-- Whitespace trim on both ends, the character-level analogue of the
JavaScript `String.trim` used by `getGitRemoteUrl`. -/
def trimChars (l : List Char) : List Char :=
  ((l.dropWhile Char.isWhitespace).reverse.dropWhile Char.isWhitespace).reverse

/-- `content.split('\n')` on the character level. -/
def splitOnNl (l : List Char) : List (List Char) :=
  l.foldr
    (fun c acc =>
      if c = '\n' then [] :: acc
      else
        match acc with
        | h :: t => (c :: h) :: t
        | [] => [[c]])
    [[]]

/-- Section scan of `getGitRemoteUrl` (`src/utils/git.ts` lines 410-429):
walk the trimmed lines, track whether the cursor is inside
`[remote "origin"]`, and return the first `url = ` value found there. -/
def findOriginUrl : List (List Char) → Bool → Option String
  | [], _ => none
  | line :: rest, inOrigin =>
    let trimmed := trimChars line
    if trimmed.take 1 = ['['] then
      findOriginUrl rest (trimmed = "[remote \x22origin\x22]".data)
    else if inOrigin && (dropPre "url = ".data trimmed).isSome then
      some (String.mk (trimChars (trimmed.drop 6)))
    else
      findOriginUrl rest inOrigin

/-- `getGitRemoteUrl` from `src/utils/git.ts`: read `<workingDir>/.git/config`
through the filesystem oracle `files`; a missing or unreadable file yields
`null`. -/
def getGitRemoteUrl (files : String → Option String) (workingDir : String) :
    Option String :=
  match files (workingDir ++ "/.git/config") with
  | none => none
  | some content => findOriginUrl (splitOnNl content.data) false

/-- `getGitHubRepoFromWorkingDir` from `src/utils/git.ts` lines 439-446. -/
def getGitHubRepoFromWorkingDir (files : String → Option String)
    (workingDir : String) : Option String :=
  match getGitRemoteUrl files workingDir with
  | none => none
  | some u => if u = "" then none else parseGitRemoteUrl u

/-- Parsed `list-tasks` input (`listTasksSchema` in `src/tools/list-tasks.ts`);
after validation `status` always holds one of the four enum strings. -/
structure ListTasksInput where
  projectId : Option String
  workingDir : Option String
  status : String
  specId : Option String
deriving DecidableEq, Repr

/-- Parsed `list-specs` input (`listSpecsSchema` in `src/tools/list-specs.ts`). -/
structure ListSpecsInput where
  projectId : Option String
  workingDir : Option String
  includeCompleted : Bool
deriving DecidableEq, Repr

/-- Parsed `list-projects` input. -/
structure ListProjectsInput where
  workingDir : Option String
deriving DecidableEq, Repr

/-- Parsed `get-task` / `start-task` input. -/
structure GetTaskInput where
  taskId : String
deriving DecidableEq, Repr

/-- Parsed `complete-task` input. -/
structure CompleteTaskInput where
  taskId : String
  summary : String
  filesModified : List String
  implementation : Option String
deriving DecidableEq, Repr

/-- Parsed `report-progress` input. -/
structure ReportProgressInput where
  taskId : String
  message : String
  percent : Option Int
deriving DecidableEq, Repr

/-- Early-exit message when auto-detection finds a repository with no linked
project (`src/tools/list-tasks.ts` lines 76-79, identical text in
`src/tools/list-specs.ts` lines 68-71). -/
def noProjectLinkedMsg (repoFullName : String) : String :=
  "No project found linked to repository: " ++ repoFullName ++
  "\n\nUse 'list-projects' to see your available projects, or link this repository\nto a project at specmanager.ai."

/-- Early-exit message when the working directory yields no git remote
(`src/tools/list-tasks.ts` lines 82-85). -/
def couldNotDetectMsg (workingDir : String) : String :=
  "Could not detect git repository from: " ++ workingDir ++
  "\n\nMake sure the directory contains a .git folder with a remote origin configured.\nAlternatively, provide a projectId directly."

/-- Early-exit message when no project id can be resolved at all
(`src/tools/list-tasks.ts` lines 95-99). -/
def noProjectSpecifiedMsg : String :=
  "No project specified. Please provide either:\n- projectId: The project UUID\n- workingDir: Path to a git repository linked to your project\n\nUse 'list-projects' to see your available projects."

/-- Result of the project-resolution preamble shared verbatim by
`handleListTasks` (lines 62-100) and `handleListSpecs` (lines 54-92): either
an early non-error usage message, a thrown backend error from
`getProjectByRepo`, or a resolved project id with the detected project name. -/
inductive ResolveOutcome where
  | message (text : String)
  | thrown (e : MCPServerError)
  | proceed (projectId : String) (projectName : Option String)
      (detectedFromRepo : Bool)
deriving DecidableEq, Repr

/-- Project-resolution preamble of `handleListTasks` / `handleListSpecs`:
auto-detect from `workingDir` when no truthy `projectId` argument was given,
fall back to the client's scope, and emit the usage message when nothing
resolves.  The list accumulates the HTTP requests performed. -/
def resolveProject (client : ClientState) (projectIdArg workingDir : Option String)
    (bk : Backend) (files : String → Option String) :
    ResolveOutcome × List String :=
  let afterDetect : (ResolveOutcome ⊕ (Option String × Option String × Bool)) × List String :=
    if !(optTruthy projectIdArg) && optTruthy workingDir then
      let wd := workingDir.getD ""
      match getGitHubRepoFromWorkingDir files wd with
      | some repo =>
        if repo = "" then (.inl (.message (couldNotDetectMsg wd)), [])
        else
          (match TaskApiClient.getProjectByRepo client repo bk with
           | (.ok (some p), tr) => (.inr (some p.id, some p.name, true), tr)
           | (.ok none, tr) => (.inl (.message (noProjectLinkedMsg repo)), tr)
           | (.error e, tr) => (.inl (.thrown e), tr))
      | none => (.inl (.message (couldNotDetectMsg wd)), [])
    else
      (.inr (projectIdArg, none, false), [])
  match afterDetect with
  | (.inl out, tr) => (out, tr)
  | (.inr (pid?, projectName, detected), tr) =>
    let pid2 := if optTruthy pid? then pid? else client.projectId
    match pid2 with
    | some pid =>
      if pid = "" then (.message noProjectSpecifiedMsg, tr)
      else (.proceed pid projectName detected, tr)
    | none => (.message noProjectSpecifiedMsg, tr)

/-- The `finally` block of `handleListTasks` (lines 140-145) and
`handleListSpecs` (lines 140-145): restore the saved scope only when it was
truthy. -/
def scopeRestore (original : Option String) (c : ClientState) : ClientState :=
  match original with
  | some s => if s = "" then c else { c with projectId := some s }
  | none => c

/-- Success-path text of `handleListTasks` (lines 112-139). -/
def renderListTasks (input : ListTasksInput) (tasks : List Task)
    (projectName : Option String) (detectedFromRepo : Bool) : String :=
  if tasks.length = 0 then
    let statusText := if input.status = "all" then "" else input.status ++ " "
    let projectText :=
      match projectName with
      | some n => if n = "" then "" else " for project \x22" ++ n ++ "\x22"
      | none => ""
    "No " ++ statusText ++ "tasks found" ++ projectText ++ "."
  else
    let header :=
      if detectedFromRepo && optTruthy projectName then
        ["**Project:** " ++ (projectName.getD "") ++ " (auto-detected from git)", ""]
      else []
    let body := tasks.flatMap (fun task =>
      let number :=
        match task.taskNumber with
        | some n => if n = "" then "" else "[" ++ n ++ "] "
        | none => ""
      let specTitle :=
        match task.spec? with
        | some sp => if sp.title = "" then "" else " (" ++ sp.title ++ ")"
        | none => ""
      let files :=
        if task.files.length > 0 then
          "\n   Files: " ++ String.intercalate ", " task.files
        else ""
      ["- " ++ number ++ task.title ++ specTitle,
       "   ID: " ++ task.id,
       "   Status: " ++ task.status ++ files,
       ""])
    String.intercalate "\n"
      (header ++ ["Found " ++ toString tasks.length ++ " task(s):", ""] ++ body)

/-- `handleListTasks` from `src/tools/list-tasks.ts` lines 58-146: resolve the
project, save the scope, overwrite it with the resolved id, perform the
backend call, and run the `finally` restore on whichever state the `try`
block left behind (after the success path already wrote `original || ''`).
Returns the handler outcome, the final client state and the HTTP trace. -/
def handleListTasks (client : ClientState) (input : ListTasksInput)
    (bk : Backend) (files : String → Option String) :
    Except MCPServerError String × ClientState × List String :=
  match resolveProject client input.projectId input.workingDir bk files with
  | (.message t, tr) => (.ok t, client, tr)
  | (.thrown e, tr) => (.error e, client, tr)
  | (.proceed pid projectName detected, tr) =>
    let original := client.projectId
    let client1 := { client with projectId := some pid }
    match TaskApiClient.listTasks client1
        (some ⟨some input.status, input.specId⟩) bk with
    | (.ok tasks, tr2) =>
      let client2 := { client1 with projectId := some (jsTruthyOr original "") }
      (.ok (renderListTasks input tasks projectName detected),
       scopeRestore original client2, tr ++ tr2)
    | (.error e, tr2) =>
      (.error e, scopeRestore original client1, tr ++ tr2)

/-- Success-path text of `handleListSpecs` (lines 104-139). -/
def renderListSpecs (input : ListSpecsInput) (specs filteredSpecs : List Spec)
    (projectName : Option String) (detectedFromRepo : Bool) : String :=
  if filteredSpecs.length = 0 then
    let projectText :=
      match projectName with
      | some n => if n = "" then "" else " for project \x22" ++ n ++ "\x22"
      | none => ""
    if specs.length > 0 && !input.includeCompleted then
      "All specs" ++ projectText ++ " are completed! Use includeCompleted=true to see them."
    else
      "No specs found" ++ projectText ++ "."
  else
    let header :=
      if detectedFromRepo && optTruthy projectName then
        ["**Project:** " ++ (projectName.getD "") ++ " (auto-detected from git)", ""]
      else []
    let body := filteredSpecs.flatMap (fun spec =>
      let isComplete := spec.taskCounts.pending = 0 ∧ spec.taskCounts.inProgress = 0
      let statusIcon := if isComplete then "[DONE]" else ""
      ["- " ++ spec.title ++ " " ++ statusIcon,
       "   ID: " ++ spec.id,
       "   Stage: " ++ spec.stage,
       "   Tasks: " ++ toString spec.taskCounts.pending ++ " pending, " ++
         toString spec.taskCounts.inProgress ++ " in-progress, " ++
         toString spec.taskCounts.done ++ " done (" ++
         toString spec.taskCounts.total ++ " total)",
       ""])
    String.intercalate "\n"
      (header ++ ["Found " ++ toString filteredSpecs.length ++ " spec(s):", ""] ++ body)

/-- `handleListSpecs` from `src/tools/list-specs.ts` lines 50-146: same
structure as `handleListTasks`, with the completed-spec filter on the success
path. -/
def handleListSpecs (client : ClientState) (input : ListSpecsInput)
    (bk : Backend) (files : String → Option String) :
    Except MCPServerError String × ClientState × List String :=
  match resolveProject client input.projectId input.workingDir bk files with
  | (.message t, tr) => (.ok t, client, tr)
  | (.thrown e, tr) => (.error e, client, tr)
  | (.proceed pid projectName detected, tr) =>
    let original := client.projectId
    let client1 := { client with projectId := some pid }
    match TaskApiClient.listSpecs client1 bk with
    | (.ok specs, tr2) =>
      let client2 := { client1 with projectId := some (jsTruthyOr original "") }
      let filteredSpecs :=
        if input.includeCompleted then specs
        else specs.filter (fun s =>
          decide (s.taskCounts.pending > 0) || decide (s.taskCounts.inProgress > 0))
      (.ok (renderListSpecs input specs filteredSpecs projectName detected),
       scopeRestore original client2, tr ++ tr2)
    | (.error e, tr2) =>
      (.error e, scopeRestore original client1, tr ++ tr2)

/-- `handleListProjects` from `src/tools/list-projects.ts` lines 197-253. -/
def handleListProjects (client : ClientState) (input : ListProjectsInput)
    (bk : Backend) (files : String → Option String) :
    Except MCPServerError String × List String :=
  let detectedRepo : Option String :=
    match input.workingDir with
    | some wd => if wd = "" then none else getGitHubRepoFromWorkingDir files wd
    | none => none
  match TaskApiClient.listProjects client bk with
  | (.error e, tr) => (.error e, tr)
  | (.ok projects, tr) =>
    if projects.length = 0 then
      (.ok "No projects found. Create a project at specmanager.ai first.", tr)
    else
      let detectedProject : Option Project :=
        match detectedRepo with
        | some r =>
          if r = "" then none
          else projects.find? (fun p => decide (p.githubRepositoryFullName = some r))
        | none => none
      let headerLines :=
        match detectedProject with
        | some dp =>
          ["**Detected Project:** " ++ dp.name,
           "  ID: " ++ dp.id,
           "  Repository: " ++ (detectedRepo.getD ""),
           "",
           "This project matches your current workspace.",
           ""]
        | none =>
          match detectedRepo with
          | some r =>
            if r = "" then []
            else
              ["**Detected Repository:** " ++ r,
               "No project is linked to this repository.",
               ""]
          | none => []
      let projLines := projects.flatMap (fun p =>
        let isCurrent :=
          match detectedProject with
          | some dp => decide (p.id = dp.id)
          | none => false
        let marker := if isCurrent then " (current)" else ""
        let repo := jsTruthyOr p.githubRepositoryFullName "No repo linked"
        ["- **" ++ p.name ++ "**" ++ marker,
         "  ID: " ++ p.id,
         "  Repository: " ++ repo,
         ""])
      (.ok (String.intercalate "\n"
        (headerLines ++
         ["**Your Projects (" ++ toString projects.length ++ "):**", ""] ++
         projLines)), tr)

/-- Success text of `handleStartTask` (`src/tools/start-task.ts` lines 35-49). -/
def renderStartTask (task : Task) : String :=
  let number :=
    match task.taskNumber with
    | some n => if n = "" then "" else "[" ++ n ++ "] "
    | none => ""
  "Task started: " ++ number ++ task.title ++
  "\n\nTask ID: " ++ task.id ++ "\nStatus: " ++ task.status ++
  "\n\nYou can now begin implementing this task.\nUse 'report-progress' to send status updates.\nUse 'complete-task' when finished."

/-- `handleStartTask` from `src/tools/start-task.ts`. -/
def handleStartTask (client : ClientState) (input : GetTaskInput)
    (bk : Backend) : Except MCPServerError String × List String :=
  match TaskApiClient.startTask client input.taskId bk with
  | (.ok task, tr) => (.ok (renderStartTask task), tr)
  | (.error e, tr) => (.error e, tr)

/-- Success text of `handleCompleteTask` (`src/tools/complete-task.ts`). -/
def renderCompleteTask (task : Task) (input : CompleteTaskInput) : String :=
  let number :=
    match task.taskNumber with
    | some n => if n = "" then "" else "[" ++ n ++ "] "
    | none => ""
  "Task completed: " ++ number ++ task.title ++
  "\n\nTask ID: " ++ task.id ++ "\nStatus: " ++ task.status ++
  "\n\nSummary: " ++ input.summary ++
  "\n\nFiles Modified:\n" ++
  String.intercalate "\n" (input.filesModified.map (fun f => "- " ++ f)) ++
  "\n\nThe task has been marked as done and users have been notified."

/-- `handleCompleteTask` from `src/tools/complete-task.ts`. -/
def handleCompleteTask (client : ClientState) (input : CompleteTaskInput)
    (bk : Backend) : Except MCPServerError String × List String :=
  match TaskApiClient.completeTask client input.taskId
      ⟨input.summary, input.filesModified, input.implementation⟩ bk with
  | (.ok task, tr) => (.ok (renderCompleteTask task input), tr)
  | (.error e, tr) => (.error e, tr)

/-- `handleReportProgress` from `src/tools/report-progress.ts`: note that the
percent suffix is emitted whenever `percent !== undefined`, including zero. -/
def handleReportProgress (client : ClientState) (input : ReportProgressInput)
    (bk : Backend) : Except MCPServerError String × List String :=
  match TaskApiClient.reportProgress client input.taskId
      ⟨input.message, input.percent⟩ bk with
  | (.ok _, tr) =>
    let percentStr :=
      match input.percent with
      | some p => " (" ++ toString p ++ "%)"
      | none => ""
    (.ok ("Progress reported" ++ percentStr ++ ": " ++ input.message), tr)
  | (.error e, tr) => (.error e, tr)

/-- Success text of `handleGetTask` (`src/tools/get-task.ts` lines 38-90),
section by section; `slice(0, 2000)` is the 2000-character prefix. -/
def renderGetTask (task : TaskDetail) : String :=
  let number :=
    match task.taskNumber with
    | some n => if n = "" then "" else "[" ++ n ++ "] "
    | none => ""
  let base :=
    ["# " ++ number ++ task.title,
     "**Status:** " ++ task.status,
     "**Task ID:** " ++ task.id,
     "**Spec:** " ++ task.spec.title ++ " (" ++ task.spec.stage ++ " stage)"]
  let filesSec :=
    if task.files.length > 0 then
      ["\n## Files to Modify\n" ++
       String.intercalate "\n" (task.files.map (fun f => "- " ++ f))]
    else []
  let implSec :=
    match task.implementation with
    | some s => if s = "" then [] else ["\n## Implementation Details\n" ++ s]
    | none => []
  let purposeSec :=
    match task.purposes with
    | some s => if s = "" then [] else ["\n## Purpose\n" ++ s]
    | none => []
  let specSec :=
    if optTruthy task.spec.requirementsContent || optTruthy task.spec.designContent then
      ["\n## Spec Context"] ++
      (match task.spec.requirementsContent with
       | some req =>
         if req = "" then []
         else
           let truncated := if req.length > 2000 then "\n...(truncated)" else ""
           ["\n### Requirements Excerpt\n" ++ req.take 2000 ++ truncated]
       | none => []) ++
      (match task.spec.designContent with
       | some dsn =>
         if dsn = "" then []
         else
           let truncated := if dsn.length > 2000 then "\n...(truncated)" else ""
           ["\n### Design Excerpt\n" ++ dsn.take 2000 ++ truncated]
       | none => [])
    else []
  String.intercalate "\n" (base ++ filesSec ++ implSec ++ purposeSec ++ specSec)

/-- `handleGetTask` from `src/tools/get-task.ts`. -/
def handleGetTask (client : ClientState) (input : GetTaskInput)
    (bk : Backend) : Except MCPServerError String × List String :=
  match TaskApiClient.getTask client input.taskId bk with
  | (.ok task, tr) => (.ok (renderGetTask task), tr)
  | (.error e, tr) => (.error e, tr)

/-- JSON-like value of an inbound tool argument; numbers are modelled as
integers. -/
inductive JValue where
  | jnull
  | jbool (b : Bool)
  | jnum (n : Int)
  | jstr (s : String)
  | jarr (xs : List JValue)
  | jobj (fields : List (String × JValue))

/-- Runtime type name of an argument value, as reported in zod invalid-type
messages. -/
def jtypeName : JValue → String
  | .jnull => "null"
  | .jbool _ => "boolean"
  | .jnum _ => "number"
  | .jstr _ => "string"
  | .jarr _ => "array"
  | .jobj _ => "object"

/-- One entry of a `ZodError`: the path of the violated field and the
human-readable reason. -/
structure ZodIssue where
  path : List String
  message : String
deriving DecidableEq, Repr

/-- Validation outcome: the coerced value or the list of all field issues. -/
abbrev ZResult (α : Type) := Except (List ZodIssue) α

/-- Combine two field validations, accumulating the issues of both (zod
validates every object property and reports all failures together). -/
def zcombine {α β : Type} : ZResult α → ZResult β → ZResult (α × β)
  | .ok a, .ok b => .ok (a, b)
  | .error e1, .error e2 => .error (e1 ++ e2)
  | .error e, .ok _ => .error e
  | .ok _, .error e => .error e

/-- Hexadecimal character test for the UUID format check. -/
def isHexChar (c : Char) : Bool :=
  c.isDigit || ('a' ≤ c && c ≤ 'f') || ('A' ≤ c && c ≤ 'F')

/-- `z.string().uuid()` format check: five hyphen-separated hexadecimal
groups of lengths 8-4-4-4-12. -/
def isUuid (s : String) : Bool :=
  match s.data.foldr
      (fun c acc =>
        if c = '-' then [] :: acc
        else
          match acc with
          | h :: t => (c :: h) :: t
          | [] => [[c]])
      [[]] with
  | [a, b, c, d, e] =>
    decide (a.length = 8) && decide (b.length = 4) && decide (c.length = 4) &&
    decide (d.length = 4) && decide (e.length = 12) &&
    (a ++ b ++ c ++ d ++ e).all isHexChar
  | _ => false

/-- Required string field with a UUID format check
(`z.string().uuid(message)`). -/
def zreqUuid (key msg : String) (args : List (String × JValue)) : ZResult String :=
  match List.lookup key args with
  | none => .error [⟨[key], "Required"⟩]
  | some (.jstr s) => if isUuid s then .ok s else .error [⟨[key], msg⟩]
  | some v => .error [⟨[key], "Expected string, received " ++ jtypeName v⟩]

/-- Optional string field with a UUID format check
(`z.string().uuid().optional()`). -/
def zoptUuid (key : String) (args : List (String × JValue)) : ZResult (Option String) :=
  match List.lookup key args with
  | none => .ok none
  | some (.jstr s) => if isUuid s then .ok (some s) else .error [⟨[key], "Invalid uuid"⟩]
  | some v => .error [⟨[key], "Expected string, received " ++ jtypeName v⟩]

/-- Optional plain string field (`z.string().optional()`). -/
def zoptStr (key : String) (args : List (String × JValue)) : ZResult (Option String) :=
  match List.lookup key args with
  | none => .ok none
  | some (.jstr s) => .ok (some s)
  | some v => .error [⟨[key], "Expected string, received " ++ jtypeName v⟩]

/-- Required nonempty string (`z.string().min(1, message)`). -/
def zreqStrMin1 (key msg : String) (args : List (String × JValue)) : ZResult String :=
  match List.lookup key args with
  | none => .error [⟨[key], "Required"⟩]
  | some (.jstr s) => if s = "" then .error [⟨[key], msg⟩] else .ok s
  | some v => .error [⟨[key], "Expected string, received " ++ jtypeName v⟩]

/-- Optional string field restricted to an enum with a default
(`z.enum(options).optional().default(d)`). -/
def zenumD (key : String) (options : List String) (d : String)
    (args : List (String × JValue)) : ZResult String :=
  match List.lookup key args with
  | none => .ok d
  | some (.jstr s) =>
    if options.contains s then .ok s
    else .error [⟨[key], "Invalid enum value: " ++ s⟩]
  | some v => .error [⟨[key], "Expected string, received " ++ jtypeName v⟩]

/-- Optional boolean with a default (`z.boolean().optional().default(d)`). -/
def zboolD (key : String) (d : Bool) (args : List (String × JValue)) : ZResult Bool :=
  match List.lookup key args with
  | none => .ok d
  | some (.jbool b) => .ok b
  | some v => .error [⟨[key], "Expected boolean, received " ++ jtypeName v⟩]

/-- Optional bounded number (`z.number().min(lo).max(hi).optional()`). -/
def zoptNumRange (key : String) (lo hi : Int) (args : List (String × JValue)) :
    ZResult (Option Int) :=
  match List.lookup key args with
  | none => .ok none
  | some (.jnum n) =>
    if n < lo then
      .error [⟨[key], "Number must be greater than or equal to " ++ toString lo⟩]
    else if hi < n then
      .error [⟨[key], "Number must be less than or equal to " ++ toString hi⟩]
    else .ok (some n)
  | some v => .error [⟨[key], "Expected number, received " ++ jtypeName v⟩]

/-- Required array of strings with at least one element
(`z.array(z.string()).min(1, message)`); element issues carry the numeric
index in the path. -/
def zreqStrArrMin1 (key msg : String) (args : List (String × JValue)) :
    ZResult (List String) :=
  match List.lookup key args with
  | none => .error [⟨[key], "Required"⟩]
  | some (.jarr xs) =>
    let elems : List (ZResult String) := xs.enum.map (fun p =>
      match p.2 with
      | .jstr s => .ok s
      | v => .error [⟨[key, toString p.1], "Expected string, received " ++ jtypeName v⟩])
    match elems.foldr (fun r acc => (zcombine r acc).map (fun q => q.1 :: q.2))
        (Except.ok ([] : List String)) with
    | .error es => .error es
    | .ok ss => if ss.length = 0 then .error [⟨[key], msg⟩] else .ok ss
  | some v => .error [⟨[key], "Expected array, received " ++ jtypeName v⟩]

/-- `listProjectsSchema.parse` (`src/tools/list-projects.ts` lines 155-157). -/
def listProjectsParse (args : List (String × JValue)) : ZResult ListProjectsInput :=
  (zoptStr "workingDir" args).map (fun wd => ⟨wd⟩)

/-- `listSpecsSchema.parse` (`src/tools/list-specs.ts` lines 9-13). -/
def listSpecsParse (args : List (String × JValue)) : ZResult ListSpecsInput :=
  match zcombine (zoptUuid "projectId" args)
      (zcombine (zoptStr "workingDir" args) (zboolD "includeCompleted" false args)) with
  | .ok (pid, wd, inc) => .ok ⟨pid, wd, inc⟩
  | .error es => .error es

/-- `listTasksSchema.parse` (`src/tools/list-tasks.ts` lines 9-14). -/
def listTasksParse (args : List (String × JValue)) : ZResult ListTasksInput :=
  match zcombine (zoptUuid "projectId" args)
      (zcombine (zoptStr "workingDir" args)
        (zcombine (zenumD "status" ["pending", "in-progress", "done", "all"] "pending" args)
          (zoptUuid "specId" args))) with
  | .ok (pid, wd, st, sid) => .ok ⟨pid, wd, st, sid⟩
  | .error es => .error es

/-- `getTaskSchema.parse` (`src/tools/get-task.ts`). -/
def getTaskParse (args : List (String × JValue)) : ZResult GetTaskInput :=
  (zreqUuid "taskId" "Task ID must be a valid UUID" args).map (fun t => ⟨t⟩)

/-- `startTaskSchema.parse` (`src/tools/start-task.ts`). -/
def startTaskParse (args : List (String × JValue)) : ZResult GetTaskInput :=
  (zreqUuid "taskId" "Task ID must be a valid UUID" args).map (fun t => ⟨t⟩)

/-- `completeTaskSchema.parse` (`src/tools/complete-task.ts` lines 8-13). -/
def completeTaskParse (args : List (String × JValue)) : ZResult CompleteTaskInput :=
  match zcombine (zreqUuid "taskId" "Task ID must be a valid UUID" args)
      (zcombine (zreqStrMin1 "summary" "Summary is required" args)
        (zcombine (zreqStrArrMin1 "filesModified" "At least one file must be listed" args)
          (zoptStr "implementation" args))) with
  | .ok (tid, s, fs, impl) => .ok ⟨tid, s, fs, impl⟩
  | .error es => .error es

/-- `reportProgressSchema.parse` (`src/tools/report-progress.ts` lines 8-12). -/
def reportProgressParse (args : List (String × JValue)) : ZResult ReportProgressInput :=
  match zcombine (zreqUuid "taskId" "Task ID must be a valid UUID" args)
      (zcombine (zreqStrMin1 "message" "Progress message is required" args)
        (zoptNumRange "percent" 0 100 args)) with
  | .ok (tid, m, p) => .ok ⟨tid, m, p⟩
  | .error es => .error es

/-- Value thrown inside `handleToolCall` and caught by the request handler in
`createServerInstance` (`src/server.ts` lines 115-130): a typed
`MCPServerError` from the proxy, a `ZodError` from schema validation, or the
plain `Error` thrown for an unknown tool name. -/
inductive Thrown where
  | mcp (e : MCPServerError)
  | zodErr (issues : List ZodIssue)
  | generic (msg : String)
deriving DecidableEq, Repr

/-- Dispatch event: the dispatcher entering an operation handler, or one
outbound backend HTTP request issued from inside a handler. -/
inductive Ev where
  | handlerStart (name : String)
  | http (line : String)
deriving DecidableEq, Repr

/-- `formatError` from `src/server.ts` lines 191-206: `MCPServerError` is
rendered with its code tag, a `ZodError` as one line per issue, any other
`Error` with only its message. -/
def formatError : Thrown → String
  | .mcp e =>
    let codeTag :=
      match e.code with
      | .NOT_CONFIGURED => "NOT_CONFIGURED"
      | .UNAUTHORIZED => "UNAUTHORIZED"
      | .TASK_NOT_FOUND => "TASK_NOT_FOUND"
      | .PROJECT_NOT_FOUND => "PROJECT_NOT_FOUND"
      | .INVALID_STATE_TRANSITION => "INVALID_STATE_TRANSITION"
      | .API_ERROR => "API_ERROR"
      | .NETWORK_ERROR => "NETWORK_ERROR"
    "Error [" ++ codeTag ++ "]: " ++ e.message
  | .zodErr issues =>
    "Validation error:\n" ++
    String.intercalate "\n"
      (issues.map (fun i => "- " ++ String.intercalate "." i.path ++ ": " ++ i.message))
  | .generic msg => "Error: " ++ msg

/-- `handleToolCall` from `src/server.ts` lines 142-186: switch on the tool
name, `schema.parse` the arguments (throwing a `ZodError` on failure), then
invoke the handler; an unregistered name throws
`new Error('Unknown tool: ' + name)`.  Returns the outcome, the client state
after the call, and the events (handler entry plus backend HTTP requests). -/
def handleToolCall (client : ClientState) (name : String)
    (args : List (String × JValue)) (bk : Backend)
    (files : String → Option String) :
    Except Thrown String × ClientState × List Ev :=
  if name = "list-projects" then
    match listProjectsParse args with
    | .error is => (.error (.zodErr is), client, [])
    | .ok input =>
      match handleListProjects client input bk files with
      | (.ok t, tr) => (.ok t, client, .handlerStart name :: tr.map Ev.http)
      | (.error e, tr) => (.error (.mcp e), client, .handlerStart name :: tr.map Ev.http)
  else if name = "list-specs" then
    match listSpecsParse args with
    | .error is => (.error (.zodErr is), client, [])
    | .ok input =>
      match handleListSpecs client input bk files with
      | (.ok t, c, tr) => (.ok t, c, .handlerStart name :: tr.map Ev.http)
      | (.error e, c, tr) => (.error (.mcp e), c, .handlerStart name :: tr.map Ev.http)
  else if name = "list-tasks" then
    match listTasksParse args with
    | .error is => (.error (.zodErr is), client, [])
    | .ok input =>
      match handleListTasks client input bk files with
      | (.ok t, c, tr) => (.ok t, c, .handlerStart name :: tr.map Ev.http)
      | (.error e, c, tr) => (.error (.mcp e), c, .handlerStart name :: tr.map Ev.http)
  else if name = "get-task" then
    match getTaskParse args with
    | .error is => (.error (.zodErr is), client, [])
    | .ok input =>
      match handleGetTask client input bk with
      | (.ok t, tr) => (.ok t, client, .handlerStart name :: tr.map Ev.http)
      | (.error e, tr) => (.error (.mcp e), client, .handlerStart name :: tr.map Ev.http)
  else if name = "start-task" then
    match startTaskParse args with
    | .error is => (.error (.zodErr is), client, [])
    | .ok input =>
      match handleStartTask client input bk with
      | (.ok t, tr) => (.ok t, client, .handlerStart name :: tr.map Ev.http)
      | (.error e, tr) => (.error (.mcp e), client, .handlerStart name :: tr.map Ev.http)
  else if name = "complete-task" then
    match completeTaskParse args with
    | .error is => (.error (.zodErr is), client, [])
    | .ok input =>
      match handleCompleteTask client input bk with
      | (.ok t, tr) => (.ok t, client, .handlerStart name :: tr.map Ev.http)
      | (.error e, tr) => (.error (.mcp e), client, .handlerStart name :: tr.map Ev.http)
  else if name = "report-progress" then
    match reportProgressParse args with
    | .error is => (.error (.zodErr is), client, [])
    | .ok input =>
      match handleReportProgress client input bk with
      | (.ok t, tr) => (.ok t, client, .handlerStart name :: tr.map Ev.http)
      | (.error e, tr) => (.error (.mcp e), client, .handlerStart name :: tr.map Ev.http)
  else
    (.error (.generic ("Unknown tool: " ++ name)), client, [])

/-- Response of the `CallToolRequestSchema` handler installed by
`createServerInstance` (`src/server.ts` lines 115-130): the rendered text,
the `isError` flag, the client state after the call and the event list. -/
structure CallResult where
  text : String
  isError : Bool
  client : ClientState
  events : List Ev
deriving DecidableEq, Repr

/-- The `CallToolRequestSchema` handler: run `handleToolCall` and render any
thrown value through `formatError`. -/
def callToolRequest (client : ClientState) (name : String)
    (args : List (String × JValue)) (bk : Backend)
    (files : String → Option String) : CallResult :=
  match handleToolCall client name args bk files with
  | (.ok text, c, evs) => ⟨text, false, c, evs⟩
  | (.error th, c, evs) => ⟨formatError th, true, c, evs⟩

/-- The request headers read by the HTTP transport handlers in
`src/server.ts`: `authorization`, `x-api-key` and `mcp-session-id`. -/
structure HeaderMap where
  authorization : Option String := none
  xApiKey : Option String := none
  mcpSessionId : Option String := none
deriving DecidableEq, Repr

/-- `extractApiKey` from `src/server.ts` lines 226-240: a
`Bearer `-prefixed authorization header wins (the key is everything after the
seven-character prefix), otherwise the dedicated `x-api-key` header, else
`null`. -/
def extractApiKey (h : HeaderMap) : Option String :=
  match h.authorization with
  | some a =>
    match dropPre "Bearer ".data a.data with
    | some rest => some (String.mk rest)
    | none => h.xApiKey
  | none => h.xApiKey

/-- `SessionData` from `src/server.ts` lines 47-51: the transport handle, the
session's own API client and the bound server instance (the latter two are
exclusively owned, so the handles are modelled as tokens plus the client
state). -/
structure SessionData where
  transportId : Nat
  apiClient : ClientState
  serverId : Nat
deriving DecidableEq, Repr

/-- Lookup in the session `Map` (`this.sessions.get`). -/
def mapGet (m : List (String × SessionData)) (k : String) : Option SessionData :=
  (m.find? (fun p => p.1 == k)).map (fun p => p.2)

/-- Deletion from the session `Map` (`this.sessions.delete`). -/
def mapDelete (m : List (String × SessionData)) (k : String) :
    List (String × SessionData) :=
  m.filter (fun p => p.1 != k)

/-- Insertion into the session `Map` (`this.sessions.set`); observationally
equivalent to the JavaScript `Map` for `get`/`delete`. -/
def mapSet (m : List (String × SessionData)) (k : String) (v : SessionData) :
    List (String × SessionData) :=
  (k, v) :: mapDelete m k

/-- State owned by one `MCPServer` instance in HTTP mode: the default backend
URL and the session registry. -/
structure GatewayState where
  defaultApiUrl : String
  sessions : List (String × SessionData)
deriving DecidableEq, Repr

/-- Externally observable action of one inbound HTTP message: connecting a
new server instance, forwarding the message into a transport (which is what
reaches the dispatcher), or closing a transport / server instance. -/
inductive GEvent where
  | serverConnect (serverId : Nat)
  | handleRequest (transportId : Nat)
  | transportClosed (transportId : Nat)
  | serverClosed (serverId : Nat)
deriving DecidableEq, Repr

/-- Response of the `POST /mcp` route, abstracted to what the claims
inspect. -/
inductive PostResponse where
  | unauthorized
  | handled
deriving DecidableEq, Repr

/-- The `POST /mcp` route from `src/server.ts` lines 260-315.  The
StreamableHTTP transport is an SDK collaborator: it generates the session id
(`crypto.randomUUID`) and fires the registered `onsessioninitialized`
callback — which runs `this.sessions.set(newSessionId, sessionData)` — while
handling an initialize message; that is modelled by the `isInit` flag and the
`freshSessionId` / `freshTransportId` / `freshServerId` parameters. -/
def handleMcpPost (st : GatewayState) (h : HeaderMap) (isInit : Bool)
    (freshSessionId : String) (freshTransportId freshServerId : Nat) :
    GatewayState × PostResponse × List GEvent :=
  match extractApiKey h with
  | none => (st, .unauthorized, [])
  | some k =>
    if k = "" then (st, .unauthorized, [])
    else
      let reuse : Option SessionData :=
        match h.mcpSessionId with
        | some sid => if sid = "" then none else mapGet st.sessions sid
        | none => none
      match reuse with
      | some sd => (st, .handled, [.handleRequest sd.transportId])
      | none =>
        let sd : SessionData :=
          ⟨freshTransportId, ⟨st.defaultApiUrl, k, none⟩, freshServerId⟩
        let st' :=
          if isInit then { st with sessions := mapSet st.sessions freshSessionId sd }
          else st
        (st', .handled, [.serverConnect freshServerId, .handleRequest freshTransportId])

/-- The `DELETE /mcp` route from `src/server.ts` lines 331-342: close the
transport and the server instance and remove the session when it exists, and
answer 204 in every case. -/
def handleMcpDelete (st : GatewayState) (h : HeaderMap) :
    GatewayState × Nat × List GEvent :=
  match h.mcpSessionId with
  | none => (st, 204, [])
  | some sid =>
    match mapGet st.sessions sid with
    | none => (st, 204, [])
    | some sd =>
      ({ st with sessions := mapDelete st.sessions sid }, 204,
       [.transportClosed sd.transportId, .serverClosed sd.serverId])

/-- Filesystem oracle of an environment with no readable git config. -/
def noFiles : String → Option String := fun _ => none

/-- Backend oracle whose every fetch fails at the transport level. -/
def downBackend : Backend :=
  ⟨fun _ => .transportError "network down", fun _ => .transportError "network down",
   fun _ => .transportError "network down", fun _ => .transportError "network down",
   fun _ => .transportError "network down", fun _ => .transportError "network down",
   fun _ _ => .transportError "network down", fun _ _ => .transportError "network down"⟩

/-- Backend oracle answering the two list endpoints with empty 200 bodies. -/
def emptyOkBackend : Backend :=
  { downBackend with
    listTasksR := fun _ => .response 200 {} (some ⟨[]⟩),
    listSpecsR := fun _ => .response 200 {} (some ⟨[]⟩) }

/-- A session client whose project scope was never set. -/
def demoClient : ClientState := ⟨"https://api.specmanager.ai", "key", none⟩

/-- A session client whose project scope is the project `project-a`. -/
def demoClientA : ClientState := ⟨"https://api.specmanager.ai", "key", some "project-a"⟩

/-- A `list-tasks` invocation carrying the explicit project `project-b`. -/
def demoInputB : ListTasksInput := ⟨some "project-b", none, "pending", none⟩

/-- A `list-specs` invocation carrying the explicit project `project-b`. -/
def demoSpecsInputB : ListSpecsInput := ⟨some "project-b", none, false⟩

/-- The thrown value of a dispatch outcome, when it failed. -/
def dispatchThrown (r : Except Thrown String × ClientState × List Ev) : Option Thrown :=
  match r.1 with
  | .error t => some t
  | .ok _ => none

/-- Whether a thrown value is a kind-tagged `MCPServerError`. -/
def Thrown.isMcp : Thrown → Bool
  | .mcp _ => true
  | _ => false

/-- Whether a rendered error text carries the machine-readable kind tag that
`formatError` gives every `MCPServerError` (the `Error [<CODE>]: ` form). -/
def textKindTagged (s : String) : Bool := s.data.take 7 = "Error [".data

/-- The error code of a failed client call, `none` on success. -/
def exCode {T : Type} : Except MCPServerError T → Option ErrorCode
  | .error e => some e.code
  | .ok _ => none

theorem mapGet_set_self (m : List (String × SessionData)) (k : String)
    (v : SessionData) : mapGet (mapSet m k v) k = some v := by
  simp [mapGet, mapSet, List.find?]

theorem mapGet_delete_self (m : List (String × SessionData)) (k : String) :
    mapGet (mapDelete m k) k = none := by
  induction m with
  | nil => rfl
  | cons p t ih =>
    by_cases hp : p.1 = k
    · simpa [mapDelete, List.filter_cons, hp] using ih
    · have h1 : mapDelete (p :: t) k = p :: mapDelete t k := by
        simp [mapDelete, List.filter_cons, hp]
      have h2 : mapGet (p :: mapDelete t k) k = mapGet (mapDelete t k) k := by
        simp [mapGet, List.find?_cons, hp]
      rw [h1, h2]
      exact ih

/-- C2.  An inbound message on `POST /mcp` that carries neither a Bearer
authorization header nor an `x-api-key` header is answered 401 immediately:
the session map is unchanged (no session is created) and no event — neither a
server connect nor a transport `handleRequest`, which is the only way to
reach the dispatcher or a backend call — is produced, for every gateway
state, initialize-or-not flavour of the message and fresh identifiers. -/
theorem missing_auth_rejected_before_session (st : GatewayState)
    (sid : Option String) (isInit : Bool) (fid : String) (ft fs : Nat) :
    handleMcpPost st ⟨none, none, sid⟩ isInit fid ft fs = (st, .unauthorized, []) := rfl

/-- C5.  A session stored by the multiplexed adapter under the freshly
generated identifier is immediately retrievable as exactly the record that
was built for it (the transport handle, the API client holding the extracted
credential and an unset scope, and the bound server instance), and after the
`DELETE /mcp` teardown of that identifier the lookup returns absent. -/
theorem session_create_lookup_destroy (st : GatewayState) (h : HeaderMap)
    (k fid : String) (ft fs : Nat)
    (hk : extractApiKey h = some k) (hk2 : ¬k = "") (hsid : h.mcpSessionId = none) :
    mapGet (handleMcpPost st h true fid ft fs).1.sessions fid =
      some ⟨ft, ⟨st.defaultApiUrl, k, none⟩, fs⟩ ∧
    mapGet (handleMcpDelete (handleMcpPost st h true fid ft fs).1
      ⟨none, none, some fid⟩).1.sessions fid = none := by
  have hpost : (handleMcpPost st h true fid ft fs).1 =
      { st with sessions := mapSet st.sessions fid ⟨ft, ⟨st.defaultApiUrl, k, none⟩, fs⟩ } := by
    simp only [handleMcpPost, hk, hsid, hk2, if_false, ite_true, if_neg hk2]
  constructor
  · rw [hpost]
    exact mapGet_set_self ..
  · rw [hpost]
    simp only [handleMcpDelete]
    rw [mapGet_set_self]
    simpa using mapGet_delete_self ..

/-- C5 witness: a concrete gateway with an empty registry, a Bearer
credential `k1` and fresh identifier `sid`. -/
theorem session_create_lookup_destroy_witness :
    mapGet (handleMcpPost ⟨"u", []⟩ ⟨some "Bearer k1", none, none⟩ true "sid" 1 2).1.sessions "sid" =
      some ⟨1, ⟨"u", "k1", none⟩, 2⟩ ∧
    mapGet (handleMcpDelete (handleMcpPost ⟨"u", []⟩ ⟨some "Bearer k1", none, none⟩ true "sid" 1 2).1
      ⟨none, none, some "sid"⟩).1.sessions "sid" = none :=
  session_create_lookup_destroy ⟨"u", []⟩ ⟨some "Bearer k1", none, none⟩ "k1" "sid" 1 2
    (by decide) (by decide) rfl

/-- C6.  Session destruction is idempotent: the `DELETE /mcp` route always
answers 204; running it a second time with the same headers changes nothing
and again answers 204 with no close events; and destroying an identifier that
is absent from the registry is a complete no-op apart from the 204 answer. -/
theorem session_destroy_idempotent :
    (∀ (st : GatewayState) (h : HeaderMap), (handleMcpDelete st h).2.1 = 204) ∧
    (∀ (st : GatewayState) (h : HeaderMap),
      handleMcpDelete (handleMcpDelete st h).1 h = ((handleMcpDelete st h).1, 204, [])) ∧
    (∀ (st : GatewayState) (sid : String), mapGet st.sessions sid = none →
      handleMcpDelete st ⟨none, none, some sid⟩ = (st, 204, [])) := by
  refine ⟨fun st h => ?_, fun st h => ?_, fun st sid hs => ?_⟩
  · unfold handleMcpDelete
    rcases h.mcpSessionId with _ | sid
    · rfl
    · rcases hg : mapGet st.sessions sid with _ | sd <;> simp [hg]
  · rcases hh : h.mcpSessionId with _ | sid
    · simp [handleMcpDelete, hh]
    · rcases hg : mapGet st.sessions sid with _ | sd
      · simp [handleMcpDelete, hh, hg]
      · have h1 : (handleMcpDelete st h).1 =
            { st with sessions := mapDelete st.sessions sid } := by
          simp [handleMcpDelete, hh, hg]
        rw [h1]
        have : mapGet (mapDelete st.sessions sid) sid = none := mapGet_delete_self ..
        simp [handleMcpDelete, hh, this]
  · simp [handleMcpDelete, hs]

/-- C6 witness: destroying the absent identifier `sid` twice on an empty
registry is a no-op answering 204 both times. -/
theorem session_destroy_idempotent_witness :
    handleMcpDelete ⟨"u", []⟩ ⟨none, none, some "sid"⟩ = (⟨"u", []⟩, 204, []) ∧
    (handleMcpDelete (handleMcpDelete ⟨"u", []⟩ ⟨none, none, some "sid"⟩).1
      ⟨none, none, some "sid"⟩) = ((handleMcpDelete ⟨"u", []⟩ ⟨none, none, some "sid"⟩).1, 204, []) :=
  ⟨session_destroy_idempotent.2.2 ⟨"u", []⟩ "sid" (by decide),
   session_destroy_idempotent.2.1 ⟨"u", []⟩ ⟨none, none, some "sid"⟩⟩

/-- C9.  The git-remote parser maps the three documented URL forms to
`acme/widgets`, yields `null` (not a failure) on an unrelated hosted-git URL,
and in general returns `null` exactly when neither the HTTPS nor the SSH
shape matches anywhere in the string. -/
theorem parse_git_remote_url_shapes :
    parseGitRemoteUrl "https://github.com/acme/widgets.git" = some "acme/widgets" ∧
    parseGitRemoteUrl "https://github.com/acme/widgets" = some "acme/widgets" ∧
    parseGitRemoteUrl "git@github.com:acme/widgets.git" = some "acme/widgets" ∧
    parseGitRemoteUrl "https://gitlab.com/acme/widgets.git" = none ∧
    (∀ url : String, scanMatch tryHttps url.data = none →
      scanMatch trySsh url.data = none → parseGitRemoteUrl url = none) := by
  refine ⟨by decide, by decide, by decide, by decide, fun url h1 h2 => ?_⟩
  unfold parseGitRemoteUrl
  rw [h1, h2]

/-- C9 witness: the no-match clause at the concrete unrelated URL
`ftp://example.com/xyz`. -/
theorem parse_git_remote_url_shapes_witness :
    parseGitRemoteUrl "ftp://example.com/xyz" = none :=
  parse_git_remote_url_shapes.2.2.2.2 "ftp://example.com/xyz" (by decide) (by decide)

/-- C4 counterexample: dispatching the unregistered name `bogus-tool` does
NOT fail with a machine-tagged failure kind.  The thrown value is the plain
`Error` with message `Unknown tool: bogus-tool` (not an `MCPServerError`
carrying an `ErrorCode` — the enum has no unknown-operation member at all),
and the rendered text `Error: Unknown tool: bogus-tool` lacks the
`Error [<KIND>]: ` tag that `formatError` gives every kind-tagged failure. -/
theorem unknown_tool_kind_cex :
    dispatchThrown (handleToolCall demoClient "bogus-tool" [] downBackend noFiles) =
      some (.generic "Unknown tool: bogus-tool") ∧
    Thrown.isMcp (.generic "Unknown tool: bogus-tool") = false ∧
    callToolRequest demoClient "bogus-tool" [] downBackend noFiles =
      ⟨"Error: Unknown tool: bogus-tool", true, demoClient, []⟩ ∧
    textKindTagged "Error: Unknown tool: bogus-tool" = false := by
  refine ⟨by decide, rfl, by decide, by decide⟩

/-- C4 amended: for every tool invocation whose operation name is not one of
the seven registered operations, dispatch fails by throwing a plain `Error`
whose message is `Unknown tool: <name>`, rendered as
`Error: Unknown tool: <name>` (no machine-readable kind tag), with no handler
entered, no backend HTTP call, and the session's client state unchanged. -/
theorem unknown_tool_generic_error (client : ClientState) (name : String)
    (args : List (String × JValue)) (bk : Backend) (files : String → Option String)
    (h : name ∉ ["list-projects", "list-specs", "list-tasks", "get-task",
      "start-task", "complete-task", "report-progress"]) :
    callToolRequest client name args bk files =
      ⟨"Error: Unknown tool: " ++ name, true, client, []⟩ := by
  simp only [List.mem_cons, List.not_mem_nil, or_false, not_or] at h
  obtain ⟨h1, h2, h3, h4, h5, h6, h7⟩ := h
  unfold callToolRequest handleToolCall
  rw [if_neg h1, if_neg h2, if_neg h3, if_neg h4, if_neg h5, if_neg h6, if_neg h7]
  rfl

/-- C4 amended witness: the unregistered name `frobnicate`. -/
theorem unknown_tool_generic_error_witness :
    callToolRequest demoClient "frobnicate" [] downBackend noFiles =
      ⟨"Error: Unknown tool: frobnicate", true, demoClient, []⟩ :=
  unknown_tool_generic_error demoClient "frobnicate" [] downBackend noFiles (by decide)

/-- C8.  `getProjectByRepo` converts exactly the `PROJECT_NOT_FOUND` failure
of its one backend round trip into the non-error absence result `null`: a
successful round trip yields the project, a failure with the
project-not-found kind yields `ok none`, and a failure with any other kind
propagates unchanged — in every case with exactly the one HTTP request. -/
theorem get_project_by_repo_not_found_suppressed (c : ClientState)
    (repo : String) (bk : Backend) :
    (∀ r : GetProjectByRepoResponse,
      TaskApiClient.request (bk.projectByRepoR
        ("/projects/by-repo?repo=" ++ encodeURIComponent repo)) = .ok r →
      TaskApiClient.getProjectByRepo c repo bk =
        (.ok (some r.project),
         [traceEntry c "GET" ("/projects/by-repo?repo=" ++ encodeURIComponent repo)])) ∧
    (∀ e : MCPServerError,
      TaskApiClient.request (bk.projectByRepoR
        ("/projects/by-repo?repo=" ++ encodeURIComponent repo)) = .error e →
      e.code = ErrorCode.PROJECT_NOT_FOUND →
      TaskApiClient.getProjectByRepo c repo bk =
        (.ok none,
         [traceEntry c "GET" ("/projects/by-repo?repo=" ++ encodeURIComponent repo)])) ∧
    (∀ e : MCPServerError,
      TaskApiClient.request (bk.projectByRepoR
        ("/projects/by-repo?repo=" ++ encodeURIComponent repo)) = .error e →
      ¬e.code = ErrorCode.PROJECT_NOT_FOUND →
      TaskApiClient.getProjectByRepo c repo bk =
        (.error e,
         [traceEntry c "GET" ("/projects/by-repo?repo=" ++ encodeURIComponent repo)])) := by
  refine ⟨fun r hr => ?_, fun e he hc => ?_, fun e he hc => ?_⟩
  · simp only [TaskApiClient.getProjectByRepo]
    rw [hr]
  · simp only [TaskApiClient.getProjectByRepo]
    rw [he]
    simp [hc]
  · simp only [TaskApiClient.getProjectByRepo]
    rw [he]
    simp [hc]

/-- C8 witness: `acme/widgets` against three concrete backends — a 404 with
code `PROJECT_NOT_FOUND` (suppressed to `ok none`), a 200 with a project body
(passed through), and a 401 (propagated as `UNAUTHORIZED`). -/
theorem get_project_by_repo_not_found_suppressed_witness :
    TaskApiClient.getProjectByRepo demoClient "acme/widgets"
      { downBackend with projectByRepoR :=
          fun _ => .response 404 ⟨none, none, some "PROJECT_NOT_FOUND"⟩ none } =
      (.ok none,
       ["GET https://api.specmanager.ai/api/v1/projects/by-repo?repo=acme%2Fwidgets"]) ∧
    TaskApiClient.getProjectByRepo demoClient "acme/widgets"
      { downBackend with projectByRepoR :=
          fun _ => .response 200 {} (some ⟨⟨"p1", "Widgets", some "acme/widgets",
            none, none, "", ""⟩⟩) } =
      (.ok (some ⟨"p1", "Widgets", some "acme/widgets", none, none, "", ""⟩),
       ["GET https://api.specmanager.ai/api/v1/projects/by-repo?repo=acme%2Fwidgets"]) ∧
    TaskApiClient.getProjectByRepo demoClient "acme/widgets"
      { downBackend with projectByRepoR := fun _ => .response 401 {} none } =
      (.error ⟨"HTTP 401", ErrorCode.UNAUTHORIZED, some 401⟩,
       ["GET https://api.specmanager.ai/api/v1/projects/by-repo?repo=acme%2Fwidgets"]) :=
  ⟨(get_project_by_repo_not_found_suppressed demoClient "acme/widgets" _).2.1
      ⟨"HTTP 404", ErrorCode.PROJECT_NOT_FOUND, some 404⟩ (by decide) rfl,
   (get_project_by_repo_not_found_suppressed demoClient "acme/widgets" _).1
      ⟨⟨"p1", "Widgets", some "acme/widgets", none, none, "", ""⟩⟩ (by decide),
   (get_project_by_repo_not_found_suppressed demoClient "acme/widgets" _).2.2
      ⟨"HTTP 401", ErrorCode.UNAUTHORIZED, some 401⟩ (by decide) (by decide)⟩

/-- C7.  The failure kind of one backend round trip is determined exactly as
the spec states: a transport-level failure maps to `NETWORK_ERROR`; HTTP 401
or 403 maps to `UNAUTHORIZED`; otherwise, for a non-2xx response, backend
code `TASK_NOT_FOUND` maps to `TASK_NOT_FOUND`, `PROJECT_NOT_FOUND` to
`PROJECT_NOT_FOUND`, the four state-rejection codes to
`INVALID_STATE_TRANSITION`, and every other (or missing) code to `API_ERROR`;
and a `listTasks` call without a truthy project scope fails locally with
`NOT_CONFIGURED` and performs no HTTP request at all. -/
theorem backend_error_mapping :
    (∀ (T : Type) (msg : String),
      TaskApiClient.request (T := T) (.transportError msg) =
        .error ⟨"Network error: " ++ msg, ErrorCode.NETWORK_ERROR, none⟩) ∧
    (∀ (T : Type) (status : Nat) (ed : ErrorData) (b : Option T),
      status = 401 ∨ status = 403 →
      exCode (TaskApiClient.request (.response status ed b)) =
        some ErrorCode.UNAUTHORIZED) ∧
    (∀ (T : Type) (status : Nat) (ed : ErrorData) (b : Option T),
      respOk status = false → ¬status = 401 → ¬status = 403 →
      ed.code = some "TASK_NOT_FOUND" →
      exCode (TaskApiClient.request (.response status ed b)) =
        some ErrorCode.TASK_NOT_FOUND) ∧
    (∀ (T : Type) (status : Nat) (ed : ErrorData) (b : Option T),
      respOk status = false → ¬status = 401 → ¬status = 403 →
      ed.code = some "PROJECT_NOT_FOUND" →
      exCode (TaskApiClient.request (.response status ed b)) =
        some ErrorCode.PROJECT_NOT_FOUND) ∧
    (∀ (T : Type) (status : Nat) (ed : ErrorData) (b : Option T) (c : String),
      respOk status = false → ¬status = 401 → ¬status = 403 →
      ed.code = some c →
      (c = "INVALID_STATE_TRANSITION" ∨ c = "TASK_ALREADY_IN_PROGRESS" ∨
       c = "TASK_NOT_STARTED" ∨ c = "TASK_ALREADY_COMPLETED") →
      exCode (TaskApiClient.request (.response status ed b)) =
        some ErrorCode.INVALID_STATE_TRANSITION) ∧
    (∀ (T : Type) (status : Nat) (ed : ErrorData) (b : Option T),
      respOk status = false → ¬status = 401 → ¬status = 403 →
      jsTruthyOr ed.code "API_ERROR" ∉
        ["TASK_NOT_FOUND", "PROJECT_NOT_FOUND", "INVALID_STATE_TRANSITION",
         "TASK_ALREADY_IN_PROGRESS", "TASK_NOT_STARTED", "TASK_ALREADY_COMPLETED"] →
      exCode (TaskApiClient.request (.response status ed b)) =
        some ErrorCode.API_ERROR) ∧
    (∀ (c : ClientState) (filters : Option TaskFilters) (bk : Backend),
      c.projectId = none ∨ c.projectId = some "" →
      TaskApiClient.listTasks c filters bk = (.error projectRequiredErr, []) ∧
      projectRequiredErr.code = ErrorCode.NOT_CONFIGURED) := by
  refine ⟨fun T msg => rfl, ?_, ?_, ?_, ?_, ?_, ?_⟩
  · rintro T status ed b (rfl | rfl) <;>
      simp [TaskApiClient.request, exCode, respOk, mapErrorCode]
  · intro T status ed b hok h1 h3 hc
    simp [TaskApiClient.request, exCode, hok, mapErrorCode, h1, h3, hc, jsTruthyOr]
  · intro T status ed b hok h1 h3 hc
    simp [TaskApiClient.request, exCode, hok, mapErrorCode, h1, h3, hc, jsTruthyOr]
  · rintro T status ed b c hok h1 h3 hc (rfl | rfl | rfl | rfl) <;>
      simp [TaskApiClient.request, exCode, hok, mapErrorCode, h1, h3, hc, jsTruthyOr]
  · intro T status ed b hok h1 h3 hc
    simp only [List.mem_cons, List.not_mem_nil, or_false, not_or] at hc
    obtain ⟨c1, c2, c3, c4, c5, c6⟩ := hc
    simp [TaskApiClient.request, exCode, hok, mapErrorCode, h1, h3, c1, c2, c3, c4, c5, c6]
  · rintro c filters bk (hp | hp) <;>
      exact ⟨by simp [TaskApiClient.listTasks, hp], rfl⟩

/-- C7 witness: each branch of the mapping at a concrete outcome — a
transport failure, a 401, a 404 with each of the kind-specific codes, a 409
state rejection, a 500 with an unknown code, and a scope-less `listTasks`
that performs no request. -/
theorem backend_error_mapping_witness :
    TaskApiClient.request (T := Unit) (.transportError "boom") =
      .error ⟨"Network error: boom", ErrorCode.NETWORK_ERROR, none⟩ ∧
    exCode (TaskApiClient.request (T := Unit) (.response 401 {} none)) =
      some ErrorCode.UNAUTHORIZED ∧
    exCode (TaskApiClient.request (T := Unit)
      (.response 404 ⟨none, none, some "TASK_NOT_FOUND"⟩ none)) =
      some ErrorCode.TASK_NOT_FOUND ∧
    exCode (TaskApiClient.request (T := Unit)
      (.response 404 ⟨none, none, some "PROJECT_NOT_FOUND"⟩ none)) =
      some ErrorCode.PROJECT_NOT_FOUND ∧
    exCode (TaskApiClient.request (T := Unit)
      (.response 409 ⟨none, none, some "TASK_ALREADY_IN_PROGRESS"⟩ none)) =
      some ErrorCode.INVALID_STATE_TRANSITION ∧
    exCode (TaskApiClient.request (T := Unit)
      (.response 500 ⟨none, none, some "SOMETHING_ELSE"⟩ none)) =
      some ErrorCode.API_ERROR ∧
    TaskApiClient.listTasks demoClient none downBackend =
      (.error projectRequiredErr, []) :=
  ⟨backend_error_mapping.1 Unit "boom",
   backend_error_mapping.2.1 Unit 401 {} none (Or.inl rfl),
   backend_error_mapping.2.2.1 Unit 404 ⟨none, none, some "TASK_NOT_FOUND"⟩ none
     (by decide) (by decide) (by decide) rfl,
   backend_error_mapping.2.2.2.1 Unit 404 ⟨none, none, some "PROJECT_NOT_FOUND"⟩ none
     (by decide) (by decide) (by decide) rfl,
   backend_error_mapping.2.2.2.2.1 Unit 409 ⟨none, none, some "TASK_ALREADY_IN_PROGRESS"⟩
     none "TASK_ALREADY_IN_PROGRESS" (by decide) (by decide) (by decide) rfl
     (Or.inr (Or.inl rfl)),
   backend_error_mapping.2.2.2.2.2.1 Unit 500 ⟨none, none, some "SOMETHING_ELSE"⟩ none
     (by decide) (by decide) (by decide) (by decide),
   (backend_error_mapping.2.2.2.2.2.2 demoClient none downBackend (Or.inl rfl)).1⟩

/-- C3.  For each of the seven registered operations, an invocation whose
argument structure fails the operation's schema validation makes the
dispatcher return the structured validation failure — one line per violated
field, rendered from the full issue list — as an error result, with the
operation handler never entered, no backend HTTP request, and the session's
client state unchanged (empty event list, same client). -/
theorem validation_failure_blocks_dispatch :
    (∀ (client : ClientState) (args : List (String × JValue)) (bk : Backend)
        (files : String → Option String) (is : List ZodIssue),
      listProjectsParse args = .error is →
      callToolRequest client "list-projects" args bk files =
        ⟨"Validation error:\n" ++ String.intercalate "\n"
          (is.map (fun i => "- " ++ String.intercalate "." i.path ++ ": " ++ i.message)),
         true, client, []⟩) ∧
    (∀ (client : ClientState) (args : List (String × JValue)) (bk : Backend)
        (files : String → Option String) (is : List ZodIssue),
      listSpecsParse args = .error is →
      callToolRequest client "list-specs" args bk files =
        ⟨"Validation error:\n" ++ String.intercalate "\n"
          (is.map (fun i => "- " ++ String.intercalate "." i.path ++ ": " ++ i.message)),
         true, client, []⟩) ∧
    (∀ (client : ClientState) (args : List (String × JValue)) (bk : Backend)
        (files : String → Option String) (is : List ZodIssue),
      listTasksParse args = .error is →
      callToolRequest client "list-tasks" args bk files =
        ⟨"Validation error:\n" ++ String.intercalate "\n"
          (is.map (fun i => "- " ++ String.intercalate "." i.path ++ ": " ++ i.message)),
         true, client, []⟩) ∧
    (∀ (client : ClientState) (args : List (String × JValue)) (bk : Backend)
        (files : String → Option String) (is : List ZodIssue),
      getTaskParse args = .error is →
      callToolRequest client "get-task" args bk files =
        ⟨"Validation error:\n" ++ String.intercalate "\n"
          (is.map (fun i => "- " ++ String.intercalate "." i.path ++ ": " ++ i.message)),
         true, client, []⟩) ∧
    (∀ (client : ClientState) (args : List (String × JValue)) (bk : Backend)
        (files : String → Option String) (is : List ZodIssue),
      startTaskParse args = .error is →
      callToolRequest client "start-task" args bk files =
        ⟨"Validation error:\n" ++ String.intercalate "\n"
          (is.map (fun i => "- " ++ String.intercalate "." i.path ++ ": " ++ i.message)),
         true, client, []⟩) ∧
    (∀ (client : ClientState) (args : List (String × JValue)) (bk : Backend)
        (files : String → Option String) (is : List ZodIssue),
      completeTaskParse args = .error is →
      callToolRequest client "complete-task" args bk files =
        ⟨"Validation error:\n" ++ String.intercalate "\n"
          (is.map (fun i => "- " ++ String.intercalate "." i.path ++ ": " ++ i.message)),
         true, client, []⟩) ∧
    (∀ (client : ClientState) (args : List (String × JValue)) (bk : Backend)
        (files : String → Option String) (is : List ZodIssue),
      reportProgressParse args = .error is →
      callToolRequest client "report-progress" args bk files =
        ⟨"Validation error:\n" ++ String.intercalate "\n"
          (is.map (fun i => "- " ++ String.intercalate "." i.path ++ ": " ++ i.message)),
         true, client, []⟩) := by
  refine ⟨?_, ?_, ?_, ?_, ?_, ?_, ?_⟩ <;>
    intro client args bk files is h <;>
    unfold callToolRequest handleToolCall
  · rw [if_pos rfl, h]
    rfl
  · rw [if_neg (by decide), if_pos rfl, h]
    rfl
  · rw [if_neg (by decide), if_neg (by decide), if_pos rfl, h]
    rfl
  · rw [if_neg (by decide), if_neg (by decide), if_neg (by decide), if_pos rfl, h]
    rfl
  · rw [if_neg (by decide), if_neg (by decide), if_neg (by decide), if_neg (by decide),
      if_pos rfl, h]
    rfl
  · rw [if_neg (by decide), if_neg (by decide), if_neg (by decide), if_neg (by decide),
      if_neg (by decide), if_pos rfl, h]
    rfl
  · rw [if_neg (by decide), if_neg (by decide), if_neg (by decide), if_neg (by decide),
      if_neg (by decide), if_neg (by decide), if_pos rfl, h]
    rfl

/-- C3 witness: a `start-task` invocation whose `taskId` is not a UUID is
rejected with the per-field validation message, no events and the client
unchanged. -/
theorem validation_failure_blocks_dispatch_witness :
    callToolRequest demoClient "start-task" [("taskId", .jstr "nope")] downBackend noFiles =
      ⟨"Validation error:\n- taskId: Task ID must be a valid UUID", true, demoClient, []⟩ :=
  validation_failure_blocks_dispatch.2.2.2.2.1 demoClient [("taskId", .jstr "nope")]
    downBackend noFiles [⟨["taskId"], "Task ID must be a valid UUID"⟩] (by decide)

theorem resolveProject_explicit (client : ClientState) (wd : Option String)
    (bk : Backend) (files : String → Option String) (b : String) (hb : ¬b = "") :
    resolveProject client (some b) wd bk files = (.proceed b none false, []) := by
  simp [resolveProject, optTruthy, hb]

theorem scopeRestore_truthy (a : String) (h : ¬a = "") (c : ClientState) :
    scopeRestore (some a) c = { c with projectId := some a } := by
  simp [scopeRestore, h]

theorem clientEta (c : ClientState) (a : String) (h : c.projectId = some a) :
    { c with projectId := some a } = c := by
  cases c
  simp_all

theorem handleListTasks_ok (client : ClientState) (tIn : ListTasksInput)
    (bk : Backend) (files : String → Option String) (b : String)
    (tasks : List Task) (tr2 : List String)
    (hb : tIn.projectId = some b) (hb2 : ¬b = "")
    (hr : TaskApiClient.listTasks { client with projectId := some b }
      (some ⟨some tIn.status, tIn.specId⟩) bk = (.ok tasks, tr2)) :
    handleListTasks client tIn bk files =
      (.ok (renderListTasks tIn tasks none false),
       scopeRestore client.projectId
         { client with projectId := some (jsTruthyOr client.projectId "") }, tr2) := by
  unfold handleListTasks
  rw [hb, resolveProject_explicit client tIn.workingDir bk files b hb2]
  dsimp only
  rw [hr]
  rfl

theorem handleListTasks_err (client : ClientState) (tIn : ListTasksInput)
    (bk : Backend) (files : String → Option String) (b : String)
    (e : MCPServerError) (tr2 : List String)
    (hb : tIn.projectId = some b) (hb2 : ¬b = "")
    (hr : TaskApiClient.listTasks { client with projectId := some b }
      (some ⟨some tIn.status, tIn.specId⟩) bk = (.error e, tr2)) :
    handleListTasks client tIn bk files =
      (.error e, scopeRestore client.projectId { client with projectId := some b }, tr2) := by
  unfold handleListTasks
  rw [hb, resolveProject_explicit client tIn.workingDir bk files b hb2]
  dsimp only
  rw [hr]
  rfl

theorem handleListSpecs_ok (client : ClientState) (sIn : ListSpecsInput)
    (bk : Backend) (files : String → Option String) (b : String)
    (specs : List Spec) (tr2 : List String)
    (hb : sIn.projectId = some b) (hb2 : ¬b = "")
    (hr : TaskApiClient.listSpecs { client with projectId := some b } bk = (.ok specs, tr2)) :
    handleListSpecs client sIn bk files =
      (.ok (renderListSpecs sIn specs
         (if sIn.includeCompleted then specs
          else specs.filter (fun s =>
            decide (s.taskCounts.pending > 0) || decide (s.taskCounts.inProgress > 0)))
         none false),
       scopeRestore client.projectId
         { client with projectId := some (jsTruthyOr client.projectId "") }, tr2) := by
  unfold handleListSpecs
  rw [hb, resolveProject_explicit client sIn.workingDir bk files b hb2]
  dsimp only
  rw [hr]
  rfl

theorem handleListSpecs_err (client : ClientState) (sIn : ListSpecsInput)
    (bk : Backend) (files : String → Option String) (b : String)
    (e : MCPServerError) (tr2 : List String)
    (hb : sIn.projectId = some b) (hb2 : ¬b = "")
    (hr : TaskApiClient.listSpecs { client with projectId := some b } bk = (.error e, tr2)) :
    handleListSpecs client sIn bk files =
      (.error e, scopeRestore client.projectId { client with projectId := some b }, tr2) := by
  unfold handleListSpecs
  rw [hb, resolveProject_explicit client sIn.workingDir bk files b hb2]
  dsimp only
  rw [hr]
  rfl

/-- C1 counterexample: a session whose scope is UNSET invokes `list-tasks`
with explicit project `project-b`; the backend call fails, and afterwards the
session's scope equals `project-b` — the previous (unset) value was NOT
restored, because the `finally` block only restores a truthy saved scope.
This refutes the claim that the previous scope value, including an unset one,
is restored unconditionally on every failure path. -/
theorem scope_restore_unset_failure_cex :
    demoClient.projectId = none ∧
    (handleListTasks demoClient demoInputB downBackend noFiles).1 =
      .error ⟨"Network error: network down", ErrorCode.NETWORK_ERROR, none⟩ ∧
    (handleListTasks demoClient demoInputB downBackend noFiles).2.1.projectId =
      some "project-b" := by
  refine ⟨rfl, by decide, by decide⟩

/-- C1 amended: for `list-tasks` and `list-specs` with an explicit truthy
projectId, a NONEMPTY saved scope `A` is restored unconditionally — for every
backend outcome, success or failure alike, the session's client state after
the call equals the state before it; but when the saved scope was unset, a
failing backend call leaves the scope equal to the explicit project `B`. -/
theorem scope_restore_amended :
    (∀ (client : ClientState) (tIn : ListTasksInput) (bk : Backend)
        (files : String → Option String) (a b : String),
      client.projectId = some a → ¬a = "" → tIn.projectId = some b → ¬b = "" →
      (handleListTasks client tIn bk files).2.1 = client) ∧
    (∀ (client : ClientState) (sIn : ListSpecsInput) (bk : Backend)
        (files : String → Option String) (a b : String),
      client.projectId = some a → ¬a = "" → sIn.projectId = some b → ¬b = "" →
      (handleListSpecs client sIn bk files).2.1 = client) ∧
    (∀ (client : ClientState) (tIn : ListTasksInput) (bk : Backend)
        (files : String → Option String) (b : String) (e : MCPServerError),
      client.projectId = none → tIn.projectId = some b → ¬b = "" →
      (handleListTasks client tIn bk files).1 = .error e →
      (handleListTasks client tIn bk files).2.1 = { client with projectId := some b }) ∧
    (∀ (client : ClientState) (sIn : ListSpecsInput) (bk : Backend)
        (files : String → Option String) (b : String) (e : MCPServerError),
      client.projectId = none → sIn.projectId = some b → ¬b = "" →
      (handleListSpecs client sIn bk files).1 = .error e →
      (handleListSpecs client sIn bk files).2.1 = { client with projectId := some b }) := by
  refine ⟨?_, ?_, ?_, ?_⟩
  · intro client tIn bk files a b ha ha2 hb hb2
    rcases hr : TaskApiClient.listTasks { client with projectId := some b }
        (some ⟨some tIn.status, tIn.specId⟩) bk with ⟨r, tr2⟩
    cases r with
    | ok tasks =>
      rw [handleListTasks_ok client tIn bk files b tasks tr2 hb hb2 hr]
      simp only [ha]
      rw [scopeRestore_truthy a ha2]
      exact clientEta client a ha
    | error e =>
      rw [handleListTasks_err client tIn bk files b e tr2 hb hb2 hr]
      simp only [ha]
      rw [scopeRestore_truthy a ha2]
      exact clientEta client a ha
  · intro client sIn bk files a b ha ha2 hb hb2
    rcases hr : TaskApiClient.listSpecs { client with projectId := some b } bk with ⟨r, tr2⟩
    cases r with
    | ok specs =>
      rw [handleListSpecs_ok client sIn bk files b specs tr2 hb hb2 hr]
      simp only [ha]
      rw [scopeRestore_truthy a ha2]
      exact clientEta client a ha
    | error e =>
      rw [handleListSpecs_err client sIn bk files b e tr2 hb hb2 hr]
      simp only [ha]
      rw [scopeRestore_truthy a ha2]
      exact clientEta client a ha
  · intro client tIn bk files b e ha hb hb2 herr
    rcases hr : TaskApiClient.listTasks { client with projectId := some b }
        (some ⟨some tIn.status, tIn.specId⟩) bk with ⟨r, tr2⟩
    cases r with
    | ok tasks =>
      rw [handleListTasks_ok client tIn bk files b tasks tr2 hb hb2 hr] at herr
      simp at herr
    | error e2 =>
      rw [handleListTasks_err client tIn bk files b e2 tr2 hb hb2 hr]
      rw [ha]
      rfl
  · intro client sIn bk files b e ha hb hb2 herr
    rcases hr : TaskApiClient.listSpecs { client with projectId := some b } bk with ⟨r, tr2⟩
    cases r with
    | ok specs =>
      rw [handleListSpecs_ok client sIn bk files b specs tr2 hb hb2 hr] at herr
      simp at herr
    | error e2 =>
      rw [handleListSpecs_err client sIn bk files b e2 tr2 hb hb2 hr]
      rw [ha]
      rfl

/-- C1 amended witness: scope `project-a` survives a failing `list-tasks` and
a successful `list-specs` with explicit project `project-b`; an unset scope
is left equal to `project-b` after a failing call. -/
theorem scope_restore_amended_witness :
    (handleListTasks demoClientA demoInputB downBackend noFiles).2.1 = demoClientA ∧
    (handleListSpecs demoClientA demoSpecsInputB emptyOkBackend noFiles).2.1 = demoClientA ∧
    (handleListTasks demoClient demoInputB downBackend noFiles).2.1 =
      { demoClient with projectId := some "project-b" } :=
  ⟨scope_restore_amended.1 demoClientA demoInputB downBackend noFiles
      "project-a" "project-b" rfl (by decide) rfl (by decide),
   scope_restore_amended.2.1 demoClientA demoSpecsInputB emptyOkBackend noFiles
      "project-a" "project-b" rfl (by decide) rfl (by decide),
   scope_restore_amended.2.2.1 demoClient demoInputB downBackend noFiles
      "project-b" ⟨"Network error: network down", ErrorCode.NETWORK_ERROR, none⟩
      rfl rfl (by decide) (by decide)⟩

/-- C10.  For a session whose scope is unset, a successful `list-tasks` or
`list-specs` with an explicit truthy projectId leaves the scope equal to the
EMPTY STRING (the success path writes `originalProjectId || ''` and the
`finally` skips a falsy saved value); and this is observationally equivalent
to an unset scope, because both scope-consuming proxy operations treat an
empty-string scope exactly like an unset one — identical
`NOT_CONFIGURED` failure, no HTTP request performed. -/
theorem unset_scope_empty_string_equiv :
    (∀ (client : ClientState) (tIn : ListTasksInput) (bk : Backend)
        (files : String → Option String) (b : String) (t : String),
      client.projectId = none → tIn.projectId = some b → ¬b = "" →
      (handleListTasks client tIn bk files).1 = .ok t →
      (handleListTasks client tIn bk files).2.1 = { client with projectId := some "" }) ∧
    (∀ (client : ClientState) (sIn : ListSpecsInput) (bk : Backend)
        (files : String → Option String) (b : String) (t : String),
      client.projectId = none → sIn.projectId = some b → ¬b = "" →
      (handleListSpecs client sIn bk files).1 = .ok t →
      (handleListSpecs client sIn bk files).2.1 = { client with projectId := some "" }) ∧
    (∀ (client : ClientState) (filters : Option TaskFilters) (bk : Backend),
      TaskApiClient.listTasks { client with projectId := some "" } filters bk =
        (.error projectRequiredErr, []) ∧
      TaskApiClient.listTasks { client with projectId := none } filters bk =
        (.error projectRequiredErr, [])) ∧
    (∀ (client : ClientState) (bk : Backend),
      TaskApiClient.listSpecs { client with projectId := some "" } bk =
        (.error projectRequiredErr, []) ∧
      TaskApiClient.listSpecs { client with projectId := none } bk =
        (.error projectRequiredErr, [])) ∧
    projectRequiredErr.code = ErrorCode.NOT_CONFIGURED := by
  refine ⟨?_, ?_, fun client filters bk => ⟨rfl, rfl⟩, fun client bk => ⟨rfl, rfl⟩, rfl⟩
  · intro client tIn bk files b t ha hb hb2 hok
    rcases hr : TaskApiClient.listTasks { client with projectId := some b }
        (some ⟨some tIn.status, tIn.specId⟩) bk with ⟨r, tr2⟩
    cases r with
    | ok tasks =>
      rw [handleListTasks_ok client tIn bk files b tasks tr2 hb hb2 hr]
      rw [ha]
      rfl
    | error e =>
      rw [handleListTasks_err client tIn bk files b e tr2 hb hb2 hr] at hok
      simp at hok
  · intro client sIn bk files b t ha hb hb2 hok
    rcases hr : TaskApiClient.listSpecs { client with projectId := some b } bk with ⟨r, tr2⟩
    cases r with
    | ok specs =>
      rw [handleListSpecs_ok client sIn bk files b specs tr2 hb hb2 hr]
      rw [ha]
      rfl
    | error e =>
      rw [handleListSpecs_err client sIn bk files b e tr2 hb hb2 hr] at hok
      simp at hok

/-- C10 witness: a successful explicit `list-tasks` on an unset-scope session
ends with scope `some ""`, and `listTasks` on the empty-string scope fails
`NOT_CONFIGURED` without an HTTP request, exactly as on the unset scope. -/
theorem unset_scope_empty_string_equiv_witness :
    (handleListTasks demoClient demoInputB emptyOkBackend noFiles).2.1 =
      { demoClient with projectId := some "" } ∧
    TaskApiClient.listTasks { demoClient with projectId := some "" } none downBackend =
      (.error projectRequiredErr, []) :=
  ⟨unset_scope_empty_string_equiv.1 demoClient demoInputB emptyOkBackend noFiles
      "project-b" "No pending tasks found." rfl rfl (by decide) (by decide),
   (unset_scope_empty_string_equiv.2.2.1 demoClient none downBackend).1⟩
end SM
